import Mathlib

/-!
Formal model of the TumourTracker registration tools: rigid and deformable
3-D volume registration built on ITK, intensity normalization, and a
Jacobian-determinant validity check.  Pure numeric code from the sources is
embedded as Lean functions over exact arithmetic; behaviour of wrapped
library components that is not part of the repository sources is modelled
from the specification and marked as such in doc comments.
-/

namespace TumourTracker

/-! ## Intensity normalization (`src/normalize_intensity.cpp`) -/

/-- Result of an IEEE floating-point division on exactly represented
operands: a finite value, NaN (from 0/0), or an infinity (from x/0 with
x ≠ 0).  Rounding is not modelled; every operation the normalization
program performs on the inputs considered below is exact. -/
inductive DivResult where
  | val (x : ℝ)
  | nan
  | infinite

open Classical in
/-- IEEE division on exact values: 0/0 is NaN, x/0 with x ≠ 0 is an
infinity, otherwise the exact quotient. -/
noncomputable def ieeeDiv (a b : ℝ) : DivResult :=
  if b = 0 then (if a = 0 then DivResult.nan else DivResult.infinite)
  else DivResult.val (a / b)

/-- First pass of `normalize_intensity.cpp`: `mean = sum / count`. -/
noncomputable def mean (xs : List ℝ) : ℝ := xs.sum / xs.length

/-- Second pass: accumulated squared deviations divided by the count
(the source computes `variance += diff * diff` then divides by `count`). -/
noncomputable def variance (xs : List ℝ) : ℝ :=
  ((xs.map fun v => (v - mean xs) ^ 2).sum) / xs.length

/-- `stddev = sqrt(variance / count)` from the source. -/
noncomputable def stddev (xs : List ℝ) : ℝ := Real.sqrt (variance xs)

/-- Third pass of `normalize_intensity.cpp`: every voxel becomes
`(value - mean) / stddev`, with no guard against a zero standard
deviation. -/
noncomputable def normalizeIntensity (xs : List ℝ) : List DivResult :=
  xs.map fun v => ieeeDiv (v - mean xs) (stddev xs)

/-- Rendering of the spec sentence "zero mean and unit variance": all
output voxels are finite values whose list has mean 0 and variance 1. -/
def zeroMeanUnitVariance (out : List DivResult) : Prop :=
  ∃ ys : List ℝ, out = ys.map DivResult.val ∧ mean ys = 0 ∧ variance ys = 1

/-! ## Pyramid scheduling and the registration error policy

Modelled from the spec: the multi-resolution pyramid machinery lives inside
`itk::ImageRegistrationMethodv4`, which the repository only instantiates;
the schedule generator, its validation, and the `ConfigurationError` kind
below follow sections 4.1 and 7 of the specification. -/

/-- Error kinds relevant to schedule validation (spec section 7). -/
inductive RegError where
  | configurationError
  deriving DecidableEq

/-- One pyramid level: integer shrink factor and Gaussian smoothing sigma. -/
structure LevelDesc where
  shrink : ℕ
  sigma : ℚ
  deriving DecidableEq

/-- Modelled from the spec: the coarse-to-fine level descriptors for an
`n`-level pyramid, shrink factors halving down to 1 and sigmas decreasing
down to 0. -/
def pyramidLevels : ℕ → List LevelDesc
  | 0 => []
  | n + 1 => ⟨2 ^ n, (n : ℚ)⟩ :: pyramidLevels n

/-- Modelled from the spec: schedule generation for `n` levels; `n = 0` is
a configuration error. -/
def pyramidSchedule (n : ℕ) : Except RegError (List LevelDesc) :=
  if n = 0 then Except.error RegError.configurationError
  else Except.ok (pyramidLevels n)

/-- Shrink factors and sigmas are strictly decreasing from one level to
the next. -/
def strictlyCoarseToFine : List LevelDesc → Bool
  | [] => true
  | [_] => true
  | a :: b :: t =>
      decide (b.shrink < a.shrink) && decide (b.sigma < a.sigma)
        && strictlyCoarseToFine (b :: t)

/-- The last level has shrink factor 1 and sigma 0. -/
def endsAtIdentity (ls : List LevelDesc) : Bool :=
  match ls.getLast? with
  | none => false
  | some a => decide (a.shrink = 1) && decide (a.sigma = 0)

/-- A schedule is valid when it is nonempty, strictly coarse-to-fine, and
ends at the identity level. -/
def validSchedule (ls : List LevelDesc) : Bool :=
  strictlyCoarseToFine ls && endsAtIdentity ls

/-- Modelled from the spec: validation of an externally supplied schedule;
violation is a `ConfigurationError`. -/
def validateSchedule (ls : List LevelDesc) : Except RegError Unit :=
  if validSchedule ls then Except.ok () else Except.error RegError.configurationError

/-- Modelled from the spec: the orchestrator validates the schedule before
running the per-level optimize loop, so a violating schedule is rejected
before any optimization starts. -/
def runPyramid {α : Type} (ls : List LevelDesc) (optimize : LevelDesc → α → α)
    (init : α) : Except RegError α :=
  match validateSchedule ls with
  | Except.error e => Except.error e
  | Except.ok _ => Except.ok (ls.foldl (fun s l => optimize l s) init)

/-! ## Jacobian validity checker

Modelled from the spec: `itk::DisplacementFieldJacobianDeterminantFilter`
is library code that the repository only invokes
(`deformable_register.cpp`, with `SetUseImageSpacing(true)`).  At each
voxel it takes the determinant of `∂(x+u(x))/∂x`, approximating `∂u/∂x`
by central differences of the displacement field scaled by the physical
voxel spacing. -/

/-- Determinant of a 3×3 matrix by cofactor expansion. -/
noncomputable def det3 (m : Fin 3 → Fin 3 → ℝ) : ℝ :=
  m 0 0 * (m 1 1 * m 2 2 - m 1 2 * m 2 1)
    - m 0 1 * (m 1 0 * m 2 2 - m 1 2 * m 2 0)
    + m 0 2 * (m 1 0 * m 2 1 - m 1 1 * m 2 0)

/-- Jacobian matrix of the mapping `x + u(x)` at voxel `x`: identity plus
the central-difference derivative of the displacement field, scaled by the
voxel spacing along the differentiated axis. -/
noncomputable def displacementJacobian (spacing : Fin 3 → ℝ)
    (u : (Fin 3 → ℤ) → Fin 3 → ℝ) (x : Fin 3 → ℤ) : Fin 3 → Fin 3 → ℝ :=
  fun i j =>
    (if i = j then 1 else 0)
      + (u (fun k => if k = j then x k + 1 else x k) i
          - u (fun k => if k = j then x k - 1 else x k) i) / (2 * spacing j)

/-- Per-voxel Jacobian determinant of the displacement-field-to-identity
mapping. -/
noncomputable def jacobianDeterminant (spacing : Fin 3 → ℝ)
    (u : (Fin 3 → ℤ) → Fin 3 → ℝ) (x : Fin 3 → ℤ) : ℝ :=
  det3 (displacementJacobian spacing u x)

/-! ## Optimizer configurations (`rigid_register.cpp`, `deformable_register.cpp`) -/

/-- The two ITK optimizer classes instantiated by the repository. -/
inductive OptimizerKind where
  | regularStepGradientDescent
  | lbfgsb
  deriving DecidableEq

/-- Optimizer configuration of the rigid path. -/
structure RigidOptimizerConfig where
  kind : OptimizerKind
  learningRate : ℚ
  minimumStepLength : ℚ
  numberOfIterations : ℕ
  scales : List ℚ
  deriving DecidableEq

/-- `rigid_register.cpp` lines 99-120: a
`RegularStepGradientDescentOptimizerv4` with learning rate 4.0, minimum
step length 0.01, 200 iterations, and per-parameter scales 1 for the
rotations and 1/1000 for the translations. -/
def rigidOptimizer : RigidOptimizerConfig :=
  { kind := OptimizerKind.regularStepGradientDescent
    learningRate := 4
    minimumStepLength := 1 / 100
    numberOfIterations := 200
    scales := [1, 1, 1, 1 / 1000, 1 / 1000, 1 / 1000] }

/-- Optimizer configuration of the deformable path. -/
structure DeformableOptimizerConfig where
  kind : OptimizerKind
  gradientConvergenceTolerance : ℚ
  numberOfIterations : ℕ
  maximumNumberOfFunctionEvaluations : ℕ
  deriving DecidableEq

/-- `deformable_register.cpp` lines 113-126: an `LBFGSBOptimizerv4` with
gradient convergence tolerance 1e-4, 200 iterations, and at most 500
function evaluations. -/
def deformableOptimizer : DeformableOptimizerConfig :=
  { kind := OptimizerKind.lbfgsb
    gradientConvergenceTolerance := 1 / 10000
    numberOfIterations := 200
    maximumNumberOfFunctionEvaluations := 500 }

/-- Modelled from the spec: which of the two instantiated ITK optimizer
classes is a quasi-Newton line-search minimizer maintaining an approximate
inverse-Hessian from a limited-memory history (the optimizer
implementations live in ITK, not under src/).
`RegularStepGradientDescentOptimizerv4` is a first-order gradient descent
with step-length relaxation and keeps no curvature history;
`LBFGSBOptimizerv4` is a limited-memory quasi-Newton method. -/
def maintainsLimitedMemoryInverseHessian : OptimizerKind → Bool
  | OptimizerKind.regularStepGradientDescent => false
  | OptimizerKind.lbfgsb => true

/-! ## L-BFGS-B bound configuration (`deformable_register.cpp` lines 128-143) -/

/-- `boundSelect.Fill(0)`: every parameter's bound-selection flag is 0. -/
def deformableBoundSelection (n : ℕ) : List ℕ := List.replicate n 0

/-- `lowerBound.Fill(0)`. -/
def deformableLowerBound (n : ℕ) : List ℚ := List.replicate n 0

/-- `upperBound.Fill(0)`. -/
def deformableUpperBound (n : ℕ) : List ℚ := List.replicate n 0

/-- Modelled from the spec: the bounded optimizer projects each step onto
the per-parameter box constraint selected by the flag (0 = unbounded, as
the source comment states; 1 = lower bound only, 2 = both, 3 = upper bound
only).  The projection itself is ITK/L-BFGS-B library code, not under
src/. -/
def lbfgsbProject (flag : ℕ) (lo hi x : ℚ) : ℚ :=
  if flag = 0 then x
  else if flag = 1 then max lo x
  else if flag = 2 then min hi (max lo x)
  else min hi x

/-! ## Transform models

Modelled from the spec: `itk::Euler3DTransform` and
`itk::BSplineTransform` are library code that the repository configures;
their point mappings follow sections 4.2 and 4.3 of the specification
(rigid: rotate about the fixed center, then translate; deformable:
tensor-product cubic B-spline displacement over a 4×4×4 control-point
neighborhood). -/

/-- Rotation about the x-axis. -/
noncomputable def rotX (a : ℝ) : Matrix (Fin 3) (Fin 3) ℝ :=
  !![1, 0, 0; 0, Real.cos a, -Real.sin a; 0, Real.sin a, Real.cos a]

/-- Rotation about the y-axis. -/
noncomputable def rotY (a : ℝ) : Matrix (Fin 3) (Fin 3) ℝ :=
  !![Real.cos a, 0, Real.sin a; 0, 1, 0; -Real.sin a, 0, Real.cos a]

/-- Rotation about the z-axis. -/
noncomputable def rotZ (a : ℝ) : Matrix (Fin 3) (Fin 3) ℝ :=
  !![Real.cos a, -Real.sin a, 0; Real.sin a, Real.cos a, 0; 0, 0, 1]

/-- Modelled from the spec: the rigid transform's point mapping
`y = R (p - c) + c + t`, with `R` composed from the three Euler angles in
ITK's default order `R = Rz · Rx · Ry`. -/
noncomputable def euler3DEvaluate (angles translation center : Fin 3 → ℝ)
    (p : Fin 3 → ℝ) : Fin 3 → ℝ :=
  fun i =>
    (rotZ (angles 2) * rotX (angles 0) * rotY (angles 1)).mulVec
        (fun j => p j - center j) i
      + center i + translation i

/-- Cubic B-spline basis weights on the local coordinate `u ∈ [0,1)`. -/
noncomputable def bsplineWeight : Fin 4 → ℝ → ℝ
  | 0, u => (1 - u) ^ 3 / 6
  | 1, u => (3 * u ^ 3 - 6 * u ^ 2 + 4) / 6
  | 2, u => (-3 * u ^ 3 + 3 * u ^ 2 + 3 * u + 1) / 6
  | 3, u => u ^ 3 / 6

/-- Geometry of the B-spline control-point lattice. -/
structure BSplineGrid where
  gridOrigin : Fin 3 → ℝ
  gridSpacing : Fin 3 → ℝ
  gridSize : Fin 3 → ℕ

/-- Modelled from the spec: the displacement at `p` is the tensor-product
cubic B-spline weighted sum of the displacement vectors of the enclosing
4×4×4 control-point neighborhood. -/
noncomputable def bsplineDisplacement (g : BSplineGrid)
    (coeff : (Fin 3 → ℤ) → Fin 3 → ℝ) (p : Fin 3 → ℝ) : Fin 3 → ℝ :=
  fun i =>
    let t : Fin 3 → ℝ := fun d => (p d - g.gridOrigin d) / g.gridSpacing d
    let base : Fin 3 → ℤ := fun d => ⌊t d⌋ - 1
    let u : Fin 3 → ℝ := fun d => t d - ⌊t d⌋
    ∑ a : Fin 4, ∑ b : Fin 4, ∑ c : Fin 4,
      bsplineWeight a (u 0) * bsplineWeight b (u 1) * bsplineWeight c (u 2) *
        coeff (fun d => if d = 0 then base 0 + a else if d = 1 then base 1 + b
          else base 2 + c) i

/-- The support region of the B-spline lattice over the fixed volume's
physical domain. -/
def insideSupport (g : BSplineGrid) (p : Fin 3 → ℝ) : Prop :=
  ∀ d : Fin 3,
    g.gridOrigin d ≤ p d ∧ p d ≤ g.gridOrigin d + g.gridSpacing d * g.gridSize d

open Classical in
/-- Modelled from the spec: `evaluate(p) = p + displacement(p)` inside the
support region; outside it the identity displacement is returned. -/
noncomputable def bsplineEvaluate (g : BSplineGrid)
    (coeff : (Fin 3 → ℤ) → Fin 3 → ℝ) (p : Fin 3 → ℝ) : Fin 3 → ℝ :=
  if insideSupport g p then (fun i => p i + bsplineDisplacement g coeff p i)
  else p

/-! ## Rigid center of rotation (`rigid_register.cpp` lines 75-85) -/

/-- The center the source computes:
`center[i] = origin[i] + spacing[i] * size[i] / 2.0` (no direction
matrix). -/
noncomputable def rigidCenter (origin spacing : Fin 3 → ℝ)
    (size : Fin 3 → ℕ) : Fin 3 → ℝ :=
  fun i => origin i + spacing i * (size i : ℝ) / 2

/-- From the spec's words (section 3): the affine voxel-to-physical
mapping `physical = origin + direction · (spacing ⊙ index)`. -/
noncomputable def specPhysicalPoint (origin : Fin 3 → ℝ)
    (direction : Matrix (Fin 3) (Fin 3) ℝ) (spacing : Fin 3 → ℝ)
    (index : Fin 3 → ℝ) : Fin 3 → ℝ :=
  fun i => origin i + direction.mulVec (fun j => spacing j * index j) i

/-- From the spec's words: the geometric center of the fixed volume's
physical bounding box, the midpoint of the physical positions of the first
voxel (index 0) and the last voxel (index size − 1). -/
noncomputable def specBBoxCenter (origin : Fin 3 → ℝ)
    (direction : Matrix (Fin 3) (Fin 3) ℝ) (spacing : Fin 3 → ℝ)
    (size : Fin 3 → ℕ) : Fin 3 → ℝ :=
  fun i =>
    (specPhysicalPoint origin direction spacing (fun _ => 0) i
      + specPhysicalPoint origin direction spacing (fun j => (size j : ℝ) - 1) i) / 2

/-- State of the rigid transform: the fixed center plus the six free
parameters. -/
structure RigidTransformState where
  center : Fin 3 → ℝ
  angles : Fin 3 → ℝ
  translation : Fin 3 → ℝ

/-- `transform->SetIdentity()` followed by `transform->SetCenter(center)`
in `rigid_register.cpp`. -/
noncomputable def initialRigidTransform (origin spacing : Fin 3 → ℝ)
    (size : Fin 3 → ℕ) : RigidTransformState :=
  { center := rigidCenter origin spacing size
    angles := fun _ => 0
    translation := fun _ => 0 }

/-- Modelled from the spec: the optimizer updates only the six free
parameters of `itk::Euler3DTransform` (three angles, three translations);
the center is a fixed parameter that parameter updates leave unchanged. -/
noncomputable def setRigidParameters (t : RigidTransformState)
    (angles translation : Fin 3 → ℝ) : RigidTransformState :=
  { t with angles := angles, translation := translation }

/-! ## Command-line entry points (`rigid_register.cpp`, `deformable_register.cpp`) -/

/-- Observable outcome of one program run: exit code, error-stream lines,
output-stream lines, and whether the output volume was written. -/
structure RunOutcome where
  exitCode : ℕ
  stderrLines : List String
  stdoutLines : List String
  written : Bool
  deriving DecidableEq

/-- Success or failure of the three fallible stages of the rigid run. -/
structure RigidEnv where
  readOk : Bool
  registrationOk : Bool
  writeOk : Bool
  deriving DecidableEq

/-- Control flow of `main` in `rigid_register.cpp`: usage check, read,
register, resample and write, in that order, each failure printing a
stage-naming diagnostic to the error stream and returning
`EXIT_FAILURE`. -/
def rigidMain (argc : ℕ) (env : RigidEnv) : RunOutcome :=
  if argc < 4 then
    { exitCode := 1
      stderrLines := ["Usage: <fixed_T0.nii> <moving_T1.nii> <output_rigid.nii>"]
      stdoutLines := []
      written := false }
  else if env.readOk = false then
    { exitCode := 1, stderrLines := ["Error reading images:"]
      stdoutLines := [], written := false }
  else if env.registrationOk = false then
    { exitCode := 1, stderrLines := ["Registration failed:"]
      stdoutLines := [], written := false }
  else if env.writeOk = false then
    { exitCode := 1, stderrLines := ["Error writing output:"]
      stdoutLines := [], written := false }
  else
    { exitCode := 0, stderrLines := []
      stdoutLines := ["Rigid registration completed successfully."]
      written := true }

/-- Success or failure of the fallible stages of the deformable run, plus
the voxel values of the Jacobian-determinant image computed after the
output is written. -/
structure DeformableEnv where
  readOk : Bool
  registrationOk : Bool
  writeOk : Bool
  jacobianValues : List ℚ
  deriving DecidableEq

/-- Minimum of the Jacobian image voxels, as `StatisticsImageFilter`
computes it. -/
def listMin : List ℚ → ℚ
  | [] => 0
  | x :: xs => xs.foldl min x

/-- Maximum of the Jacobian image voxels. -/
def listMax : List ℚ → ℚ
  | [] => 0
  | x :: xs => xs.foldl max x

/-- The range report printed by `deformable_register.cpp`. -/
def jacobianRangeMessage (mn mx : ℚ) : String :=
  "JacobianDeterminant range: [" ++ toString mn ++ ", " ++ toString mx ++ "]"

/-- Control flow of `main` in `deformable_register.cpp`: usage check,
read, register (printing its success line), resample and write, then the
Jacobian-determinant sanity check, which prints the min/max range, warns
when the minimum is non-positive, and returns `EXIT_SUCCESS`. -/
def deformableMain (argc : ℕ) (env : DeformableEnv) : RunOutcome :=
  if argc < 4 then
    { exitCode := 1
      stderrLines := ["Usage: <fixed_T0> <moving_T1> <output_deformed.nii>"]
      stdoutLines := []
      written := false }
  else if env.readOk = false then
    { exitCode := 1, stderrLines := ["Error reading images: "]
      stdoutLines := [], written := false }
  else if env.registrationOk = false then
    { exitCode := 1, stderrLines := ["Deformable registration failed:"]
      stdoutLines := [], written := false }
  else if env.writeOk = false then
    { exitCode := 1, stderrLines := ["Error writing output image:"]
      stdoutLines := ["Deformable registration completed successfully."]
      written := false }
  else
    { exitCode := 0
      stderrLines := []
      stdoutLines :=
        ["Deformable registration completed successfully.",
            jacobianRangeMessage (listMin env.jacobianValues)
              (listMax env.jacobianValues)]
          ++ (if listMin env.jacobianValues ≤ 0
              then ["WARNING: Non-Positive Jacobian detected."] else [])
      written := true }

/-- A run fails naming its stage: non-zero exit code and the stage's
diagnostic on the error stream. -/
def failsNaming (out : RunOutcome) (msg : String) : Prop :=
  out.exitCode ≠ 0 ∧ msg ∈ out.stderrLines

/-- The command-line contract of the rigid entry point. -/
def rigidCliContract (argc : ℕ) (env : RigidEnv) : Prop :=
  ((rigidMain argc env).exitCode = 0 ↔
      (env.readOk = true ∧ env.registrationOk = true ∧ env.writeOk = true)) ∧
  (env.readOk = false →
      failsNaming (rigidMain argc env) "Error reading images:") ∧
  (env.readOk = true → env.registrationOk = false →
      failsNaming (rigidMain argc env) "Registration failed:") ∧
  (env.readOk = true → env.registrationOk = true → env.writeOk = false →
      failsNaming (rigidMain argc env) "Error writing output:")

/-- The command-line contract of the deformable entry point. -/
def deformableCliContract (argc : ℕ) (env : DeformableEnv) : Prop :=
  ((deformableMain argc env).exitCode = 0 ↔
      (env.readOk = true ∧ env.registrationOk = true ∧ env.writeOk = true)) ∧
  (env.readOk = false →
      failsNaming (deformableMain argc env) "Error reading images: ") ∧
  (env.readOk = true → env.registrationOk = false →
      failsNaming (deformableMain argc env) "Deformable registration failed:") ∧
  (env.readOk = true → env.registrationOk = true → env.writeOk = false →
      failsNaming (deformableMain argc env) "Error writing output image:")

/-! ## Helper lemmas -/

theorem sum_map_sub_const (xs : List ℝ) (c : ℝ) :
    (xs.map fun v => v - c).sum = xs.sum - xs.length * c := by
  induction xs with
  | nil => simp
  | cons a t ih =>
      simp only [List.map_cons, List.sum_cons, ih, List.length_cons]
      push_cast
      ring

theorem sum_map_div_const (xs : List ℝ) (f : ℝ → ℝ) (s : ℝ) :
    (xs.map fun v => f v / s).sum = (xs.map f).sum / s := by
  induction xs with
  | nil => simp
  | cons a t ih =>
      simp only [List.map_cons, List.sum_cons, ih]
      ring

theorem sum_sub_mean (xs : List ℝ) (h : xs ≠ []) :
    (xs.map fun v => v - mean xs).sum = 0 := by
  have hn : (xs.length : ℝ) ≠ 0 := by
    exact_mod_cast (List.length_pos.mpr h).ne'
  rw [sum_map_sub_const, mean]
  field_simp

theorem variance_nonneg (xs : List ℝ) : 0 ≤ variance xs := by
  apply div_nonneg _ (Nat.cast_nonneg _)
  apply List.sum_nonneg
  intro x hx
  rcases List.mem_map.mp hx with ⟨v, -, rfl⟩
  positivity

theorem mean_replicate (n : ℕ) (c : ℝ) (hn : 0 < n) :
    mean (List.replicate n c) = c := by
  have hnz : (n : ℝ) ≠ 0 := Nat.cast_ne_zero.mpr hn.ne'
  simp only [mean, List.sum_replicate, List.length_replicate, nsmul_eq_mul]
  field_simp

theorem stddev_replicate (n : ℕ) (c : ℝ) (hn : 0 < n) :
    stddev (List.replicate n c) = 0 := by
  have hv : variance (List.replicate n c) = 0 := by
    simp [variance, mean_replicate n c hn, List.map_replicate, List.sum_replicate]
  simp [stddev, hv]

/-! ## Claim theorems -/

/-- C9 counterexample: on the constant two-voxel volume `[1, 1]` the
standard deviation is zero, the per-voxel division is 0/0, and the output
is NaN at every voxel, so it is not a zero-mean unit-variance volume. -/
theorem C9_cex_constant_volume :
    ¬ zeroMeanUnitVariance (normalizeIntensity [1, 1]) := by
  have hs : stddev [(1 : ℝ), 1] = 0 := by
    simpa using stddev_replicate 2 (1 : ℝ) (by norm_num)
  have hm : mean [(1 : ℝ), 1] = 1 := by
    simpa using mean_replicate 2 (1 : ℝ) (by norm_num)
  have hne : normalizeIntensity [(1 : ℝ), 1] = [DivResult.nan, DivResult.nan] := by
    simp [normalizeIntensity, ieeeDiv, hs, hm]
  rw [hne]
  rintro ⟨ys, hys, -, -⟩
  cases ys with
  | nil => simp at hys
  | cons a t => simp at hys

/-- C9 amended: for every input volume with at least one voxel and a
nonzero variance, the normalization program outputs finite voxels
`(value − mean)/stddev` whose list has zero mean and unit (population)
variance; the model is a pure function of the input list. -/
theorem C9_normalize_zero_mean_unit_variance (xs : List ℝ)
    (h0 : xs ≠ []) (hv : variance xs ≠ 0) :
    zeroMeanUnitVariance (normalizeIntensity xs) := by
  have hn : (xs.length : ℝ) ≠ 0 := by
    exact_mod_cast (List.length_pos.mpr h0).ne'
  have hvpos : 0 < variance xs := lt_of_le_of_ne (variance_nonneg xs) (Ne.symm hv)
  have hs2 : stddev xs ^ 2 = variance xs := by
    simp [stddev, sq, Real.mul_self_sqrt (variance_nonneg xs)]
  have hs : stddev xs ≠ 0 := by
    intro h
    rw [h] at hs2
    exact hv (by simpa using hs2.symm)
  refine ⟨xs.map fun v => (v - mean xs) / stddev xs, ?_, ?_, ?_⟩
  · rw [normalizeIntensity, List.map_map]
    refine List.map_congr_left fun v _ => ?_
    simp [ieeeDiv, Function.comp, hs]
  · have hsum : (xs.map fun v => (v - mean xs) / stddev xs).sum = 0 := by
      rw [sum_map_div_const, sum_sub_mean xs h0, zero_div]
    have hdef : mean (xs.map fun v => (v - mean xs) / stddev xs)
        = (xs.map fun v => (v - mean xs) / stddev xs).sum
            / (xs.map fun v => (v - mean xs) / stddev xs).length := rfl
    rw [hdef, hsum, zero_div]
  · have hsum : (xs.map fun v => (v - mean xs) / stddev xs).sum = 0 := by
      rw [sum_map_div_const, sum_sub_mean xs h0, zero_div]
    have hmean : mean (xs.map fun v => (v - mean xs) / stddev xs) = 0 := by
      have hdef : mean (xs.map fun v => (v - mean xs) / stddev xs)
          = (xs.map fun v => (v - mean xs) / stddev xs).sum
              / (xs.map fun v => (v - mean xs) / stddev xs).length := rfl
      rw [hdef, hsum, zero_div]
    rw [variance, hmean]
    simp only [sub_zero, List.map_map, List.length_map]
    have hcomp :
        ((fun y => y ^ 2) ∘ fun v => (v - mean xs) / stddev xs)
          = fun v => ((v - mean xs) ^ 2) / stddev xs ^ 2 := by
      funext v
      simp [Function.comp, div_pow]
    rw [hcomp, sum_map_div_const, hs2]
    have hS : (List.map (fun v => (v - mean xs) ^ 2) xs).sum ≠ 0 := by
      intro h
      apply hv
      rw [variance, h, zero_div]
    rw [variance, div_div, div_mul_cancel₀ _ hn, div_self hS]

/-- Witness for the amended C9 theorem at the concrete volume `[0, 2]`. -/
theorem C9_witness :
    ([0, 2] : List ℝ) ≠ [] ∧ variance [(0 : ℝ), 2] ≠ 0 ∧
      zeroMeanUnitVariance (normalizeIntensity [(0 : ℝ), 2]) := by
  have h0 : ([0, 2] : List ℝ) ≠ [] := by simp
  have hv : variance [(0 : ℝ), 2] ≠ 0 := by
    have hm : mean [(0 : ℝ), 2] = 1 := by
      norm_num [mean]
    rw [variance, hm]
    norm_num
  exact ⟨h0, hv, C9_normalize_zero_mean_unit_variance [0, 2] h0 hv⟩

/-- C10: for a volume whose voxels are all equal, the standard deviation
is zero, the unguarded division is 0/0, and every output voxel is NaN; no
error is reported (the normalization stage is total and has no failure
branch). -/
theorem C10_constant_volume_all_nan (n : ℕ) (c : ℝ) (hn : 0 < n) :
    normalizeIntensity (List.replicate n c) = List.replicate n DivResult.nan := by
  have hm : mean (List.replicate n c) = c := mean_replicate n c hn
  have hs : stddev (List.replicate n c) = 0 := stddev_replicate n c hn
  simp [normalizeIntensity, List.map_replicate, hm, hs, ieeeDiv]

/-- Witness for C10 at the concrete constant volume `[1, 1]`. -/
theorem C10_witness :
    0 < 2 ∧
      normalizeIntensity (List.replicate 2 (1 : ℝ))
        = List.replicate 2 DivResult.nan :=
  ⟨by norm_num, C10_constant_volume_all_nan 2 1 (by norm_num)⟩

theorem pyramidLevels_length : ∀ n : ℕ, (pyramidLevels n).length = n := by
  intro n
  induction n with
  | zero => rfl
  | succ m ih => simp [pyramidLevels, ih]

theorem pyramidLevels_succ (n : ℕ) :
    pyramidLevels (n + 1) = ⟨2 ^ n, (n : ℚ)⟩ :: pyramidLevels n := rfl

theorem pyramidLevels_getLast :
    ∀ n : ℕ, (pyramidLevels (n + 1)).getLast? = some ⟨1, 0⟩ := by
  intro n
  induction n with
  | zero => rfl
  | succ m ih =>
      rw [pyramidLevels_succ (m + 1), pyramidLevels_succ m,
        List.getLast?_cons_cons, ← pyramidLevels_succ m]
      exact ih

theorem endsAtIdentity_pyramidLevels (n : ℕ) :
    endsAtIdentity (pyramidLevels (n + 1)) = true := by
  rw [endsAtIdentity, pyramidLevels_getLast n]
  rfl

theorem strictly_pyramidLevels : ∀ n : ℕ, strictlyCoarseToFine (pyramidLevels n) = true := by
  intro n
  induction n with
  | zero => rfl
  | succ m ih =>
      cases m with
      | zero => rfl
      | succ k =>
          rw [pyramidLevels_succ (k + 1), pyramidLevels_succ k]
          simp only [strictlyCoarseToFine, Bool.and_eq_true, decide_eq_true_eq]
          refine ⟨⟨Nat.pow_lt_pow_succ one_lt_two, ?_⟩, ?_⟩
          · exact_mod_cast Nat.lt_succ_self k
          · rw [← pyramidLevels_succ k]
            exact ih

/-- C1: `pyramidSchedule 0` is a configuration error; every successfully
generated `n`-level schedule has exactly `n` descriptors with strictly
decreasing shrink factors ending at 1 and strictly decreasing sigmas
ending at 0; and the orchestrator rejects any violating schedule with a
`ConfigurationError` before running the optimize loop. -/
theorem C1_pyramid_schedule (n : ℕ) (ls : List LevelDesc) :
    (pyramidSchedule 0 = Except.error RegError.configurationError) ∧
    (pyramidSchedule n = Except.ok ls →
      ls.length = n ∧ validSchedule ls = true) ∧
    (validSchedule ls = false →
      runPyramid ls (fun _ k => k + 1) (0 : ℕ)
        = Except.error RegError.configurationError) := by
  refine ⟨rfl, ?_, ?_⟩
  · intro h
    have hn : n ≠ 0 := by
      intro h0
      subst h0
      simp [pyramidSchedule] at h
    have hls : ls = pyramidLevels n := by
      simp [pyramidSchedule, hn] at h
      exact h.symm
    subst hls
    cases n with
    | zero => exact absurd rfl hn
    | succ m =>
        refine ⟨pyramidLevels_length _, ?_⟩
        simp [validSchedule, strictly_pyramidLevels,
          endsAtIdentity_pyramidLevels]
  · intro h
    simp [runPyramid, validateSchedule, h]

/-- Witness for C1: the three-level schedule is generated with the stated
shape, and the empty (violating) schedule is rejected before any
optimization. -/
theorem C1_witness :
    ((pyramidLevels 3).length = 3 ∧ validSchedule (pyramidLevels 3) = true) ∧
    runPyramid [] (fun _ k => k + 1) (0 : ℕ)
      = Except.error RegError.configurationError :=
  ⟨(C1_pyramid_schedule 3 (pyramidLevels 3)).2.1 rfl,
   (C1_pyramid_schedule 0 []).2.2 rfl⟩

/-- C2: the Jacobian validity checker evaluates, at every voxel, the
determinant of `∂(x+u(x))/∂x` with spacing-scaled central differences; for
the identity transform (zero displacement everywhere) the determinant is
1 at every voxel for every spacing. -/
theorem C2_jacobian_identity_one (spacing : Fin 3 → ℝ) (x : Fin 3 → ℤ) :
    jacobianDeterminant spacing (fun _ _ => 0) x = 1 := by
  simp [jacobianDeterminant, displacementJacobian, det3]

/-- C3 counterexample: the optimizer configured by the rigid entry point
is `RegularStepGradientDescentOptimizerv4`, which maintains no
limited-memory inverse-Hessian history, so the rigid path is not driven by
a quasi-Newton line-search minimizer. -/
theorem C3_cex_rigid_not_quasi_newton :
    maintainsLimitedMemoryInverseHessian rigidOptimizer.kind = false := rfl

/-- C3 amended: the rigid path is driven by a regular-step gradient
descent (first-order, no inverse-Hessian history) with learning rate 4.0,
minimum step length 0.01, a 200-iteration cap, and per-parameter scales;
the limited-memory quasi-Newton optimizer (L-BFGS-B) drives the deformable
path instead. -/
theorem C3_rigid_regular_step_gradient_descent :
    rigidOptimizer.kind = OptimizerKind.regularStepGradientDescent ∧
    maintainsLimitedMemoryInverseHessian rigidOptimizer.kind = false ∧
    rigidOptimizer.learningRate = 4 ∧
    rigidOptimizer.minimumStepLength = 1 / 100 ∧
    rigidOptimizer.numberOfIterations = 200 ∧
    rigidOptimizer.scales = [1, 1, 1, 1 / 1000, 1 / 1000, 1 / 1000] ∧
    deformableOptimizer.kind = OptimizerKind.lbfgsb ∧
    maintainsLimitedMemoryInverseHessian deformableOptimizer.kind = true :=
  ⟨rfl, rfl, rfl, rfl, rfl, rfl, rfl, rfl⟩

theorem rotX_zero : rotX 0 = 1 := by
  ext i j
  fin_cases i <;> fin_cases j <;>
    simp [rotX, Matrix.one_apply, Matrix.vecHead, Matrix.vecTail]

theorem rotY_zero : rotY 0 = 1 := by
  ext i j
  fin_cases i <;> fin_cases j <;>
    simp [rotY, Matrix.one_apply, Matrix.vecHead, Matrix.vecTail]

theorem rotZ_zero : rotZ 0 = 1 := by
  ext i j
  fin_cases i <;> fin_cases j <;>
    simp [rotZ, Matrix.one_apply, Matrix.vecHead, Matrix.vecTail]

/-- C4: with all six rigid parameters zero the rigid transform maps every
point to itself (for every center), and with every control-point
displacement zero the B-spline transform maps every point to itself (both
inside and outside the support region, hence in particular inside it). -/
theorem C4_identity_transforms :
    (∀ center p : Fin 3 → ℝ,
        euler3DEvaluate (fun _ => 0) (fun _ => 0) center p = p) ∧
    (∀ (g : BSplineGrid) (p : Fin 3 → ℝ),
        bsplineEvaluate g (fun _ _ => 0) p = p) := by
  constructor
  · intro center p
    funext i
    simp [euler3DEvaluate, rotX_zero, rotY_zero, rotZ_zero, Matrix.one_mulVec]
  · intro g p
    unfold bsplineEvaluate
    split
    · funext i
      simp [bsplineDisplacement]
    · rfl

/-- C5 counterexample: for a fixed volume with origin 0, unit spacing,
identity direction, and 2 voxels per axis, the source's center formula
`origin + spacing·size/2` gives 1 per axis, while the geometric center of
the physical bounding box under the spec's affine mapping is 1/2 per
axis. -/
theorem C5_cex_center_mismatch :
    rigidCenter (fun _ => 0) (fun _ => 1) (fun _ => 2)
      ≠ specBBoxCenter (fun _ => 0) 1 (fun _ => 1) (fun _ => 2) := by
  intro h
  have h0 := congrFun h 0
  simp [rigidCenter, specBBoxCenter, specPhysicalPoint, Matrix.one_mulVec] at h0
  norm_num at h0

/-- C5 amended: before optimization the rigid transform's center is set
once, componentwise, to `origin[i] + spacing[i]·size[i]/2` — the source
ignores the direction matrix and uses `size` rather than the bounding-box
midpoint index `size − 1` — and parameter updates during optimization
never change the center. -/
theorem C5_center_formula_set_once (origin spacing : Fin 3 → ℝ)
    (size : Fin 3 → ℕ) (angles translation : Fin 3 → ℝ) :
    (initialRigidTransform origin spacing size).center
        = rigidCenter origin spacing size ∧
    (setRigidParameters (initialRigidTransform origin spacing size)
        angles translation).center = rigidCenter origin spacing size :=
  ⟨rfl, rfl⟩

theorem replicate_getD_self {α : Type} (c : α) :
    ∀ n i : ℕ, (List.replicate n c).getD i c = c := by
  intro n
  induction n with
  | zero => intro i; rfl
  | succ m ih =>
      intro i
      cases i with
      | zero => rfl
      | succ j =>
          rw [List.replicate_succ, List.getD_cons_succ]
          exact ih j

/-- C6: the deformable path fills the bound-selection array with 0
(unbounded) for every parameter, and with flag 0 the L-BFGS-B projection
leaves every step value unchanged whatever the (zero-filled) lower and
upper bound arrays hold, so the configuration is effectively
unconstrained. -/
theorem C6_bounds_unconstrained (n i : ℕ) (x lo hi : ℚ) :
    (deformableBoundSelection n).all (fun f => f == 0) = true ∧
    lbfgsbProject ((deformableBoundSelection n).getD i 0)
        ((deformableLowerBound n).getD i 0)
        ((deformableUpperBound n).getD i 0) x = x ∧
    lbfgsbProject ((deformableBoundSelection n).getD i 0) lo hi x = x := by
  have hflag : (deformableBoundSelection n).getD i 0 = 0 :=
    replicate_getD_self 0 n i
  refine ⟨?_, ?_, ?_⟩
  · simp [deformableBoundSelection, List.all_eq_true, List.eq_of_mem_replicate]
  · rw [hflag]
    rfl
  · rw [hflag]
    rfl

/-- C7: each registration entry point, given at least the three path
arguments, exits with code 0 exactly when reading, registration, and
writing all succeed, and on a read, registration, or write failure it
exits non-zero after printing the stage-naming diagnostic to the error
stream. -/
theorem C7_cli_exit_codes (argc : ℕ) (re : RigidEnv) (de : DeformableEnv)
    (h : 4 ≤ argc) :
    rigidCliContract argc re ∧ deformableCliContract argc de := by
  have h4 : ¬ argc < 4 := Nat.not_lt.mpr h
  rcases re with ⟨r, g, w⟩
  rcases de with ⟨r2, g2, w2, js⟩
  constructor
  · cases r <;> cases g <;> cases w <;>
      simp [rigidCliContract, rigidMain, failsNaming, h4]
  · cases r2 <;> cases g2 <;> cases w2 <;>
      simp [deformableCliContract, deformableMain, failsNaming, h4]

/-- Witness for C7 at `argc = 4` with all three stages succeeding. -/
theorem C7_witness :
    4 ≤ 4 ∧
      (rigidCliContract 4 ⟨true, true, true⟩ ∧
        deformableCliContract 4 ⟨true, true, true, [1]⟩) :=
  ⟨by norm_num,
   C7_cli_exit_codes 4 ⟨true, true, true⟩ ⟨true, true, true, [1]⟩ (by norm_num)⟩

/-- C8: when the deformable run succeeds through the write stage and the
minimum Jacobian determinant is non-positive, the program still exits with
code 0, the output volume has been written, and the output stream carries
the min/max range report and the non-positive-Jacobian warning. -/
theorem C8_jacobian_warning_nonfatal (argc : ℕ) (env : DeformableEnv)
    (h4 : 4 ≤ argc) (hr : env.readOk = true) (hg : env.registrationOk = true)
    (hw : env.writeOk = true) (hmin : listMin env.jacobianValues ≤ 0) :
    (deformableMain argc env).exitCode = 0 ∧
    (deformableMain argc env).written = true ∧
    "WARNING: Non-Positive Jacobian detected."
      ∈ (deformableMain argc env).stdoutLines ∧
    jacobianRangeMessage (listMin env.jacobianValues)
        (listMax env.jacobianValues)
      ∈ (deformableMain argc env).stdoutLines := by
  have h4' : ¬ argc < 4 := Nat.not_lt.mpr h4
  rcases env with ⟨r, g, w, js⟩
  simp only at hr hg hw hmin
  subst hr
  subst hg
  subst hw
  simp [deformableMain, h4', hmin]

/-- Witness for C8 at `argc = 4` with Jacobian image `[-1, 2]`. -/
theorem C8_witness :
    listMin [-1, 2] ≤ 0 ∧
      ((deformableMain 4 ⟨true, true, true, [-1, 2]⟩).exitCode = 0 ∧
        (deformableMain 4 ⟨true, true, true, [-1, 2]⟩).written = true ∧
        "WARNING: Non-Positive Jacobian detected."
          ∈ (deformableMain 4 ⟨true, true, true, [-1, 2]⟩).stdoutLines ∧
        jacobianRangeMessage (listMin [-1, 2]) (listMax [-1, 2])
          ∈ (deformableMain 4 ⟨true, true, true, [-1, 2]⟩).stdoutLines) :=
  ⟨by decide,
   C8_jacobian_warning_nonfatal 4 ⟨true, true, true, [-1, 2]⟩
     (by norm_num) rfl rfl rfl (by decide)⟩

end TumourTracker
